import Mathlib

/-!
Shallow embedding of the Pay4Skill server core (in-memory entity store,
task/application state machine routes, payment routes, user update route,
and the socket room relay) together with proofs about the behaviour of
those operations.

The store (`MemStorage` in the source) keeps one JavaScript `Map` per
entity type, keyed by the entity id, plus a monotonic id counter per type.
Every write the verified routes perform keeps the map key equal to the
entity's `id` field for tasks, applications, payments, user badges and
notifications, so those collections are embedded as lists of entities and
`Map.set(id, v)` becomes a pointwise replace of the (unique) entry whose
`id` field matches.  Users are the one collection where a route can write a
value whose `id` field differs from its map key (the PATCH /api/users/:id
body is shallow-merged over the record, body fields winning), so users are
embedded as explicit key/value pairs.  The badge catalog, messages and
reports collections are not touched by any operation embedded here and are
omitted from the state.

JavaScript exceptions over a mutable store are embedded by `StepResult`:
a thrown error carries the store as already mutated, since the in-memory
store has no rollback.  Route handlers wrap their body in a single
try/catch that maps any thrown error to a generic 500 response; the
embedding reproduces that shape.
-/

namespace Pay4Skill

/-- A user record (shared/schema `users` row, fields relevant to the
verified routes). -/
structure User where
  id : Nat
  username : String
  email : String
  fullName : String
  role : String
  bio : String
deriving Repr, DecidableEq

/-- A task record: `status` ranges over "open", "in-progress", "completed". -/
structure Task where
  id : Nat
  employerId : Nat
  title : String
  status : String
deriving Repr, DecidableEq

/-- An application record: `status` ranges over "applied", "accepted",
"rejected". -/
structure Application where
  id : Nat
  taskId : Nat
  studentId : Nat
  coverLetter : String
  status : String
deriving Repr, DecidableEq

/-- A payment record. -/
structure Payment where
  id : Nat
  applicationId : Nat
  amount : Int
  status : String
deriving Repr, DecidableEq

/-- A user/badge association row. -/
structure UserBadge where
  id : Nat
  userId : Nat
  badgeId : Nat
deriving Repr, DecidableEq

/-- A notification record. -/
structure Notification where
  id : Nat
  userId : Nat
  ntype : String
  content : String
  isRead : Bool
deriving Repr, DecidableEq

/-- The in-memory store (`MemStorage`), restricted to the collections the
verified operations read or write. -/
structure MemStorage where
  users : List (Nat × User)
  tasks : List Task
  applications : List Application
  payments : List Payment
  userBadges : List UserBadge
  notifications : List Notification
  currentUserId : Nat
  currentTaskId : Nat
  currentApplicationId : Nat
  currentPaymentId : Nat
  currentUserBadgeId : Nat
  currentNotificationId : Nat
deriving Repr, DecidableEq

/-- Result of a storage operation that can throw a JavaScript exception:
the thrown case carries the store as mutated so far (no rollback). -/
inductive StepResult (α : Type) where
  | ok : α → MemStorage → StepResult α
  | thrown : String → MemStorage → StepResult α
deriving Repr

/-- An HTTP route response: success status code and JSON value, or error
status code and `{ message }`. -/
inductive ApiResponse (α : Type) where
  | ok : Nat → α → ApiResponse α
  | err : Nat → String → ApiResponse α
deriving Repr, DecidableEq

/-! ## Storage methods (`MemStorage` in the source) -/

/-- `MemStorage.getUser`: `this.users.get(id)` (map lookup by key). -/
def getUser (s : MemStorage) (id : Nat) : Option User :=
  (s.users.find? (fun p => p.1 == id)).map Prod.snd

/-- Insert payload for `createUser` (fields set by /api/register). -/
structure InsertUser where
  username : String
  email : String
  fullName : String
  role : String
  bio : String
deriving Repr, DecidableEq

/-- `MemStorage.createUser`: assigns the next user id and stores the
record under that key. -/
def createUser (s : MemStorage) (ins : InsertUser) : User × MemStorage :=
  let id := s.currentUserId
  let user : User := { id := id, username := ins.username, email := ins.email,
                       fullName := ins.fullName, role := ins.role, bio := ins.bio }
  (user, { s with users := s.users ++ [(id, user)], currentUserId := id + 1 })

/-- A `Partial<User>` patch: any subset of user fields, including `id` and
`role`, may appear in a PATCH /api/users/:id body. -/
structure UserPatch where
  id : Option Nat := none
  username : Option String := none
  email : Option String := none
  fullName : Option String := none
  role : Option String := none
  bio : Option String := none
deriving Repr, DecidableEq

/-- The spread `{ ...user, ...userData }` in `MemStorage.updateUser`:
shallow merge, patch fields win. -/
def mergeUser (u : User) (p : UserPatch) : User :=
  { id := p.id.getD u.id
    username := p.username.getD u.username
    email := p.email.getD u.email
    fullName := p.fullName.getD u.fullName
    role := p.role.getD u.role
    bio := p.bio.getD u.bio }

/-- `MemStorage.updateUser`: throws if the id is absent, otherwise stores
the merged record under the same key (the stored value's `id` field may
now differ from the key if the patch contained `id`). -/
def updateUser (s : MemStorage) (id : Nat) (p : UserPatch) : StepResult User :=
  match s.users.find? (fun q => q.1 == id) with
  | none => .thrown "User not found" s
  | some q =>
    let updated := mergeUser q.2 p
    .ok updated
      { s with users := s.users.map (fun r => if r.1 == id then (id, updated) else r) }

/-- `MemStorage.getTask`. -/
def getTask (s : MemStorage) (id : Nat) : Option Task :=
  s.tasks.find? (fun t => t.id == id)

/-- `MemStorage.updateTask` as invoked by the verified routes, which all
pass the patch `{ status }`: merges the new status over the stored task.
The store key equals the task's `id` field, so `Map.set` is the pointwise
replace of the entry with that id. -/
def updateTaskStatus (s : MemStorage) (id : Nat) (status : String) : StepResult Task :=
  match s.tasks.find? (fun t => t.id == id) with
  | none => .thrown "Task not found" s
  | some t =>
    .ok { t with status := status }
      { s with tasks := s.tasks.map (fun u => if u.id == id then { u with status := status } else u) }

/-- `MemStorage.getApplication`. -/
def getApplication (s : MemStorage) (id : Nat) : Option Application :=
  s.applications.find? (fun a => a.id == id)

/-- `MemStorage.getApplicationsByTaskId`. -/
def getApplicationsByTaskId (s : MemStorage) (taskId : Nat) : List Application :=
  s.applications.filter (fun a => a.taskId == taskId)

/-- `MemStorage.getApplicationByStudentAndTask`. -/
def getApplicationByStudentAndTask (s : MemStorage) (studentId taskId : Nat) :
    Option Application :=
  s.applications.find? (fun a => a.studentId == studentId && a.taskId == taskId)

/-- Insert payload for `createApplication` (the POST /api/applications body
after the route overwrites `studentId` with the session user's id). -/
structure InsertApplication where
  taskId : Nat
  studentId : Nat
  coverLetter : String
  status : String
deriving Repr, DecidableEq

/-- `MemStorage.createApplication`: assigns the next application id and
stores the record. -/
def createApplication (s : MemStorage) (ins : InsertApplication) :
    Application × MemStorage :=
  let id := s.currentApplicationId
  let app : Application := { id := id, taskId := ins.taskId, studentId := ins.studentId,
                             coverLetter := ins.coverLetter, status := ins.status }
  (app, { s with applications := s.applications ++ [app],
                 currentApplicationId := id + 1 })

/-- The store write of `updateApplicationStatus`: `Map.set(id, { ...a,
status })` as a pointwise replace of the entry whose id matches. -/
def setStatusFn (i : Nat) (st : String) (b : Application) : Application :=
  if b.id == i then { b with status := st } else b

/-- `MemStorage.updateApplicationStatus`: throws if the id is absent,
otherwise stores `{ ...application, status }` back under the same key
(pointwise replace of the entry with that id). -/
def updateApplicationStatus (s : MemStorage) (id : Nat) (status : String) :
    StepResult Application :=
  match s.applications.find? (fun a => a.id == id) with
  | none => .thrown "Application not found" s
  | some a =>
    .ok { a with status := status }
      { s with applications := s.applications.map (setStatusFn id status) }

/-- Insert payload for `createPayment` (POST /api/payments body / the
record built by POST /api/payment-confirm). -/
structure InsertPayment where
  applicationId : Nat
  amount : Int
  status : String
deriving Repr, DecidableEq

/-- `MemStorage.createPayment`. -/
def createPayment (s : MemStorage) (ins : InsertPayment) : Payment × MemStorage :=
  let id := s.currentPaymentId
  let payment : Payment := { id := id, applicationId := ins.applicationId,
                             amount := ins.amount, status := ins.status }
  (payment, { s with payments := s.payments ++ [payment],
                     currentPaymentId := id + 1 })

/-- Insert payload for `awardBadgeToUser`. -/
structure InsertUserBadge where
  userId : Nat
  badgeId : Nat
deriving Repr, DecidableEq

/-- `MemStorage.awardBadgeToUser`: if the user already holds the badge the
existing association is returned and the store is untouched; otherwise a
fresh association is created. -/
def awardBadgeToUser (s : MemStorage) (ins : InsertUserBadge) : UserBadge × MemStorage :=
  match s.userBadges.find? (fun ub => ub.userId == ins.userId && ub.badgeId == ins.badgeId) with
  | some existing => (existing, s)
  | none =>
    let id := s.currentUserBadgeId
    let ub : UserBadge := { id := id, userId := ins.userId, badgeId := ins.badgeId }
    (ub, { s with userBadges := s.userBadges ++ [ub],
                  currentUserBadgeId := id + 1 })

/-- `MemStorage.createNotification`, with fault injection: the source
method itself always succeeds (`notifOk = true` is its exact behaviour);
`notifOk = false` models a notification-persistence failure thrown at the
storage boundary, used to examine how the routes propagate such a
failure. -/
def createNotification (notifOk : Bool) (s : MemStorage)
    (userId : Nat) (ntype content : String) : StepResult Notification :=
  if notifOk then
    let id := s.currentNotificationId
    let n : Notification := { id := id, userId := userId, ntype := ntype,
                              content := content, isRead := false }
    .ok n { s with notifications := s.notifications ++ [n],
                   currentNotificationId := id + 1 }
  else .thrown "notification persistence failure" s

/-! ## Route handlers (registerRoutes in the source)

Each handler takes the authenticated session user (`req.user`), the parsed
request data, the fault-injection flag for notification persistence, and
the store, and returns the HTTP response together with the store as left
behind by the handler (including the case where the single try/catch of
the route maps a thrown error to a 500 response). -/

/-- The cascade loop of PATCH /api/applications/:id/status: for every
application in the fetched list other than the acted-upon one that is
still in status "applied", set it to "rejected" and notify its student.
A thrown error aborts the loop, keeping earlier mutations. -/
def rejectCascade (notifOk : Bool) (applicationId : Nat) (taskTitle : String) :
    List Application → MemStorage → StepResult Unit
  | [], s => .ok () s
  | app :: rest, s =>
    if app.id ≠ applicationId ∧ app.status = "applied" then
      match updateApplicationStatus s app.id "rejected" with
      | .thrown e s1 => .thrown e s1
      | .ok _ s1 =>
        match createNotification notifOk s1 app.studentId "application_rejected"
            ("Your application for \"" ++ taskTitle ++ "\" has been rejected") with
        | .thrown e s2 => .thrown e s2
        | .ok _ s2 => rejectCascade notifOk applicationId taskTitle rest s2
    else rejectCascade notifOk applicationId taskTitle rest s

/-- PATCH /api/applications/:id/status (requireRole ["employer", "admin"]). -/
def patchApplicationStatus (caller : User) (applicationId : Nat) (status : String)
    (notifOk : Bool) (s : MemStorage) : ApiResponse Application × MemStorage :=
  if ¬ (caller.role = "employer" ∨ caller.role = "admin") then
    (.err 403 "Forbidden", s)
  else if ¬ (status = "applied" ∨ status = "accepted" ∨ status = "rejected") then
    (.err 400 "Invalid status", s)
  else
    match getApplication s applicationId with
    | none => (.err 404 "Application not found", s)
    | some application =>
      match getTask s application.taskId with
      | none => (.err 404 "Task not found", s)
      | some task =>
        if task.employerId ≠ caller.id ∧ caller.role ≠ "admin" then
          (.err 403 "Forbidden", s)
        else
          match updateApplicationStatus s applicationId status with
          | .thrown _ s1 => (.err 500 "Failed to update application status", s1)
          | .ok updatedApplication s1 =>
            let afterBranch : StepResult Unit :=
              if status = "accepted" then
                match updateTaskStatus s1 task.id "in-progress" with
                | .thrown e s2 => .thrown e s2
                | .ok _ s2 =>
                  rejectCascade notifOk applicationId task.title
                    (getApplicationsByTaskId s2 task.id) s2
              else .ok () s1
            match afterBranch with
            | .thrown _ s3 => (.err 500 "Failed to update application status", s3)
            | .ok _ s3 =>
              match createNotification notifOk s3 application.studentId
                  ("application_" ++ status)
                  ("Your application for \"" ++ task.title ++ "\" has been " ++ status) with
              | .thrown _ s4 => (.err 500 "Failed to update application status", s4)
              | .ok _ s4 => (.ok 200 updatedApplication, s4)

/-- Request body of POST /api/applications (the client sends taskId,
coverLetter and status; the route overwrites studentId with the session
user's id). -/
structure ApplicationBody where
  taskId : Nat
  coverLetter : String
  status : String
deriving Repr, DecidableEq

/-- POST /api/applications (requireRole ["student"]): rejects a duplicate
(studentId, taskId) application with 400, otherwise creates the
application; the employer notification is only attempted when the task
exists. -/
def postApplications (caller : User) (body : ApplicationBody) (notifOk : Bool)
    (s : MemStorage) : ApiResponse Application × MemStorage :=
  if caller.role ≠ "student" then (.err 403 "Forbidden", s)
  else
    match getApplicationByStudentAndTask s caller.id body.taskId with
    | some _ => (.err 400 "You have already applied to this task", s)
    | none =>
      let (newApplication, s1) := createApplication s
        { taskId := body.taskId, studentId := caller.id,
          coverLetter := body.coverLetter, status := body.status }
      match getTask s1 body.taskId with
      | none => (.ok 201 newApplication, s1)
      | some task =>
        match createNotification notifOk s1 task.employerId "new_application"
            ("New application received for \"" ++ task.title ++ "\"") with
        | .thrown _ s2 => (.err 500 "Failed to create application", s2)
        | .ok _ s2 => (.ok 201 newApplication, s2)

/-- POST /api/payments (requireRole ["employer", "admin"]), the legacy
payment path: checks ownership and that the task is in progress before
recording the payment and completing the task. -/
def postPayments (caller : User) (body : InsertPayment) (notifOk : Bool)
    (s : MemStorage) : ApiResponse Payment × MemStorage :=
  if ¬ (caller.role = "employer" ∨ caller.role = "admin") then
    (.err 403 "Forbidden", s)
  else
    match getApplication s body.applicationId with
    | none => (.err 404 "Application not found", s)
    | some application =>
      match getTask s application.taskId with
      | none => (.err 404 "Task not found", s)
      | some task =>
        if task.employerId ≠ caller.id ∧ caller.role ≠ "admin" then
          (.err 403 "Forbidden", s)
        else if task.status ≠ "in-progress" then
          (.err 400 "Cannot mark payment for a task that is not in progress", s)
        else
          let (newPayment, s1) := createPayment s body
          match updateTaskStatus s1 task.id "completed" with
          | .thrown _ s2 => (.err 500 "Failed to create payment", s2)
          | .ok _ s2 =>
            match createNotification notifOk s2 application.studentId "payment_completed"
                ("Payment received for \"" ++ task.title ++ "\"") with
            | .thrown _ s3 => (.err 500 "Failed to create payment", s3)
            | .ok _ s3 => (.ok 201 newPayment, s3)

/-- POST /api/payment-confirm (requireAuth only), the primary payment
path, on its simulated-payment branch (no paymentIntentId supplied, so the
gateway-verification branch at the top of the handler is skipped): any
authenticated caller may confirm; no ownership, role or task-status check
is performed; a completed payment is recorded and the task is completed. -/
def postPaymentConfirm (caller : User) (applicationId : Nat) (amount : Int)
    (notifOk : Bool) (s : MemStorage) : ApiResponse Payment × MemStorage :=
  match getApplication s applicationId with
  | none => (.err 404 "Application not found", s)
  | some application =>
    match getTask s application.taskId with
    | none => (.err 404 "Task not found", s)
    | some task =>
      let (newPayment, s1) := createPayment s
        { applicationId := applicationId, amount := amount, status := "completed" }
      match updateTaskStatus s1 task.id "completed" with
      | .thrown _ s2 => (.err 500 "Error confirming payment", s2)
      | .ok _ s2 =>
        match createNotification notifOk s2 application.studentId "payment_completed"
            ("Payment received for \"" ++ task.title ++ "\"") with
        | .thrown _ s3 => (.err 500 "Error confirming payment", s3)
        | .ok _ s3 => (.ok 200 newPayment, s3)

/-- PATCH /api/users/:id (requireAuth): only the user themselves or an
admin may update; the whole request body is passed to
`MemStorage.updateUser` unfiltered. -/
def patchUser (caller : User) (userId : Nat) (body : UserPatch)
    (s : MemStorage) : ApiResponse User × MemStorage :=
  if caller.id ≠ userId ∧ caller.role ≠ "admin" then (.err 403 "Forbidden", s)
  else
    match updateUser s userId body with
    | .thrown _ s1 => (.err 500 "Failed to update user", s1)
    | .ok updatedUser s1 => (.ok 200 updatedUser, s1)

/-! ## Real-time relay (Socket.io handlers)

Room membership is the server-side state socket.io keeps per room name;
`socket.to(room).emit(...)` delivers to every connection currently in the
room except the emitting socket (socket.io broadcast-except-sender
semantics). Connections are identified by socket ids, embedded as `Nat`. -/

/-- Room name used by both relay handlers: `application_<id>`. -/
def roomName (applicationId : Nat) : String :=
  "application_" ++ toString applicationId

/-- Relay state: membership list per room name. -/
structure RelayState where
  rooms : List (String × List Nat)
deriving Repr, DecidableEq

/-- The members currently in a room (empty if the room does not exist). -/
def roomMembers (st : RelayState) (room : String) : List Nat :=
  match st.rooms.find? (fun p => p.1 == room) with
  | some p => p.2
  | none => []

/-- The join_application handler: `socket.join(roomName)` adds the socket
to the room's membership set (idempotent). -/
def joinApplication (st : RelayState) (socketId applicationId : Nat) : RelayState :=
  let room := roomName applicationId
  if socketId ∈ roomMembers st room then st
  else if (st.rooms.find? (fun p => p.1 == room)).isSome then
    { rooms := st.rooms.map (fun p => if p.1 == room then (p.1, p.2 ++ [socketId]) else p) }
  else
    { rooms := st.rooms ++ [(room, [socketId])] }

/-- The send_message handler's delivery set:
`socket.to(application_<id>).emit('receive_message', message)` forwards
the message to every connection in the room except the sender. -/
def sendMessageRecipients (st : RelayState) (senderId applicationId : Nat) : List Nat :=
  (roomMembers st (roomName applicationId)).filter (fun c => c ≠ senderId)

/-! ## Derived predicates and fixtures -/

/-- Whether the accept cascade with acted-upon application `tid`, run over
the fetched snapshot `todo`, rejects the application with id `i`. -/
def cascadeHit (todo : List Application) (tid i : Nat) : Bool :=
  todo.any (fun x => x.id == i && !(x.id == tid) && x.status == "applied")

/-- At most one application per (studentId, taskId) pair. -/
def pairUnique (apps : List Application) : Prop :=
  apps.Pairwise (fun a b => ¬(a.studentId = b.studentId ∧ a.taskId = b.taskId))

/-- Number of stored user/badge associations for the pair (u, b). -/
def countPair (s : MemStorage) (u b : Nat) : Nat :=
  (s.userBadges.filter (fun ub => ub.userId == u && ub.badgeId == b)).length

/-- The store as constructed by the `MemStorage` constructor (badge
catalog seeding omitted: the badge catalog is not part of the embedded
state). -/
def emptyStore : MemStorage :=
  { users := [], tasks := [], applications := [], payments := [], userBadges := [],
    notifications := [], currentUserId := 1, currentTaskId := 1, currentApplicationId := 1,
    currentPaymentId := 1, currentUserBadgeId := 1, currentNotificationId := 1 }

/-- Concrete fixtures used to witness the theorems below. -/
def student1 : User :=
  { id := 1, username := "s1", email := "s1@x", fullName := "Student One",
    role := "student", bio := "" }

def student2 : User :=
  { id := 2, username := "s2", email := "s2@x", fullName := "Student Two",
    role := "student", bio := "" }

def employer1 : User :=
  { id := 3, username := "e1", email := "e1@x", fullName := "Employer One",
    role := "employer", bio := "" }

def task1 : Task := { id := 1, employerId := 3, title := "T1", status := "open" }

def app1 : Application :=
  { id := 1, taskId := 1, studentId := 1, coverLetter := "c1", status := "applied" }

def app2 : Application :=
  { id := 2, taskId := 1, studentId := 2, coverLetter := "c2", status := "applied" }

def student3 : User :=
  { id := 4, username := "s3", email := "s3@x", fullName := "Student Three",
    role := "student", bio := "" }

/-- A store with one open task owned by employer1 and two applied
applications on it. -/
def baseStore : MemStorage :=
  { users := [(1, student1), (2, student2), (3, employer1)], tasks := [task1],
    applications := [app1, app2], payments := [], userBadges := [], notifications := [],
    currentUserId := 4, currentTaskId := 2, currentApplicationId := 3,
    currentPaymentId := 1, currentUserBadgeId := 1, currentNotificationId := 1 }

/-- `baseStore` with app1 already accepted (terminal status). -/
def accStore : MemStorage :=
  { baseStore with applications := [{ app1 with status := "accepted" }, app2] }

/-- `baseStore` with task1 already in progress. -/
def progStore : MemStorage :=
  { baseStore with tasks := [{ task1 with status := "in-progress" }] }

/-- `baseStore` with one user badge already awarded. -/
def ubStore : MemStorage :=
  { baseStore with userBadges := [{ id := 1, userId := 1, badgeId := 2 }],
                   currentUserBadgeId := 2 }

/-- The registration payload of the counterexample user. -/
def aliceIns : InsertUser :=
  { username := "alice", email := "alice@x", fullName := "Alice A",
    role := "student", bio := "" }

/-- The user and store produced by registering alice on an empty store. -/
def aliceReg : User × MemStorage := createUser emptyStore aliceIns

/-- Relay state after three joins: sockets 10 and 11 in application 1's
room, socket 12 in application 2's room. -/
def relay1 : RelayState :=
  joinApplication (joinApplication (joinApplication { rooms := [] } 10 1) 11 1) 12 2

/-! ## Helper lemmas -/

theorem createNotification_false (s : MemStorage) (userId : Nat) (ntype content : String) :
    createNotification false s userId ntype content
      = .thrown "notification persistence failure" s := by
  unfold createNotification
  simp

theorem createNotification_true (s : MemStorage) (userId : Nat) (ntype content : String) :
    createNotification true s userId ntype content
      = .ok { id := s.currentNotificationId, userId := userId, ntype := ntype,
              content := content, isRead := false }
          { s with
              notifications := s.notifications ++
                [{ id := s.currentNotificationId, userId := userId, ntype := ntype,
                   content := content, isRead := false }],
              currentNotificationId := s.currentNotificationId + 1 } := by
  unfold createNotification
  rw [if_pos rfl]

theorem updateApplicationStatus_found (s : MemStorage) (id : Nat) (st : String)
    (A : Application) (h : getApplication s id = some A) :
    updateApplicationStatus s id st
      = .ok { A with status := st }
          { s with applications := s.applications.map (setStatusFn id st) } := by
  unfold updateApplicationStatus
  have h' : s.applications.find? (fun a => a.id == id) = some A := h
  simp only [h']

theorem updateTaskStatus_found (s : MemStorage) (id : Nat) (st : String)
    (T : Task) (h : getTask s id = some T) :
    updateTaskStatus s id st
      = .ok { T with status := st }
          { s with tasks := s.tasks.map (fun u => if u.id == id then { u with status := st } else u) } := by
  unfold updateTaskStatus
  have h' : s.tasks.find? (fun t => t.id == id) = some T := h
  simp only [h']

theorem setStatusFn_id (i : Nat) (st : String) (b : Application) :
    (setStatusFn i st b).id = b.id := by
  unfold setStatusFn; split <;> rfl

theorem cascadeHit_nil (tid i : Nat) : cascadeHit [] tid i = false := rfl

/-- The applications list produced by the accept cascade, as a single
pointwise map over the list it starts from. -/
theorem cascade_fold_closed (tid : Nat) (todo : List Application) (apps : List Application) :
    todo.foldl
      (fun acc a =>
        if a.id ≠ tid ∧ a.status = "applied" then acc.map (setStatusFn a.id "rejected") else acc)
      apps
    = apps.map (fun b => if cascadeHit todo tid b.id then { b with status := "rejected" } else b) := by
  induction todo generalizing apps with
  | nil =>
    simp [cascadeHit]
  | cons a todo ih =>
    rw [List.foldl_cons]
    by_cases hguard : a.id ≠ tid ∧ a.status = "applied"
    · rw [if_pos hguard, ih, List.map_map]
      refine List.map_congr_left (fun b _ => ?_)
      simp only [Function.comp_apply, setStatusFn]
      by_cases hb : b.id = a.id
      · have hba : (b.id == a.id) = true := by simp [hb]
        rw [if_pos hba]
        have hhit : cascadeHit (a :: todo) tid b.id = true := by
          simp only [cascadeHit, List.any_cons]
          have h1 : (a.id == b.id) = true := by simp [hb]
          have h2 : (!(a.id == tid)) = true := by simp [hguard.1]
          have h3 : (a.status == "applied") = true := by simp [hguard.2]
          simp [h1, h2, h3]
        rw [hhit]
        simp only [if_true]
        split <;> rfl
      · have hba : (b.id == a.id) = false := by simp [hb]
        rw [hba]
        simp only [Bool.false_eq_true, if_false]
        have hcons : cascadeHit (a :: todo) tid b.id = cascadeHit todo tid b.id := by
          simp only [cascadeHit, List.any_cons]
          have h1 : (a.id == b.id) = false := by
            simp only [beq_eq_false_iff_ne, ne_eq]
            exact fun h => hb h.symm
          simp [h1]
        rw [hcons]
    · rw [if_neg hguard, ih]
      refine List.map_congr_left (fun b _ => ?_)
      have hcons : cascadeHit (a :: todo) tid b.id = cascadeHit todo tid b.id := by
        simp only [cascadeHit, List.any_cons]
        rcases not_and_or.mp hguard with h | h
        · have : (!(a.id == tid)) = false := by simp [not_not.mp h]
          simp [this]
        · have : (a.status == "applied") = false := by simp [h]
          simp [this]
      rw [hcons]

/-- With real (never-failing) notification persistence, the accept
cascade never throws; it rewrites the applications list by the fold of
pointwise status replacements and leaves all other collections alone. -/
theorem rejectCascade_ok (tid : Nat) (title : String) (todo : List Application)
    (s : MemStorage) (hex : ∀ a ∈ todo, ∃ x ∈ s.applications, x.id = a.id) :
    ∃ s', rejectCascade true tid title todo s = .ok () s' ∧
      s'.applications = todo.foldl
        (fun acc a =>
          if a.id ≠ tid ∧ a.status = "applied" then acc.map (setStatusFn a.id "rejected") else acc)
        s.applications ∧
      s'.tasks = s.tasks := by
  induction todo generalizing s with
  | nil => exact ⟨s, rfl, rfl, rfl⟩
  | cons a todo ih =>
    by_cases hguard : a.id ≠ tid ∧ a.status = "applied"
    · obtain ⟨x, hx, hxid⟩ := hex a (List.mem_cons_self a todo)
      have hfind : (getApplication s a.id).isSome := by
        unfold getApplication
        rw [List.find?_isSome]
        exact ⟨x, hx, by simp [hxid]⟩
      obtain ⟨b, hb⟩ := Option.isSome_iff_exists.mp hfind
      have hupd := updateApplicationStatus_found s a.id "rejected" b hb
      set s1 : MemStorage :=
        { s with applications := s.applications.map (setStatusFn a.id "rejected") } with hs1
      set s2 : MemStorage :=
        { s1 with
            notifications := s1.notifications ++
              [{ id := s1.currentNotificationId, userId := a.studentId,
                 ntype := "application_rejected",
                 content := "Your application for \"" ++ title ++ "\" has been rejected",
                 isRead := false }],
            currentNotificationId := s1.currentNotificationId + 1 } with hs2
      have hex2 : ∀ c ∈ todo, ∃ x ∈ s2.applications, x.id = c.id := by
        intro c hc
        obtain ⟨y, hy, hyid⟩ := hex c (List.mem_cons_of_mem a hc)
        refine ⟨setStatusFn a.id "rejected" y, ?_, by rw [setStatusFn_id]; exact hyid⟩
        exact List.mem_map_of_mem _ hy
      obtain ⟨s', h1, h2, h3⟩ := ih s2 hex2
      refine ⟨s', ?_, ?_, ?_⟩
      · unfold rejectCascade
        rw [if_pos hguard]
        simp only [hupd, createNotification_true]
        exact h1
      · rw [h2, List.foldl_cons, if_pos hguard]
      · rw [h3]
    · obtain ⟨s', h1, h2, h3⟩ := ih s (fun c hc => hex c (List.mem_cons_of_mem a hc))
      refine ⟨s', ?_, ?_, h3⟩
      · unfold rejectCascade
        rw [if_neg hguard]
        exact h1
      · rw [h2, List.foldl_cons, if_neg hguard]

/-- Looking an id up after the pointwise status replace finds the status
replacement of the entry the lookup found before. -/
theorem setStatusFn_find?_map (apps : List Application) (j : Nat) (st : String) (i : Nat) :
    (apps.map (setStatusFn j st)).find? (fun x => x.id == i)
      = (apps.find? (fun x => x.id == i)).map (setStatusFn j st) := by
  induction apps with
  | nil => rfl
  | cons x rest ih =>
    rw [List.map_cons]
    by_cases hx : (x.id == i) = true
    · have hx' : ((setStatusFn j st x).id == i) = true := by rw [setStatusFn_id]; exact hx
      simp only [List.find?_cons, hx, hx', Option.map_some']
    · have hxf : (x.id == i) = false := by simpa using hx
      have hx' : ((setStatusFn j st x).id == i) = false := by rw [setStatusFn_id]; exact hxf
      simp only [List.find?_cons, hxf, hx']
      exact ih

/-- With failing notification persistence, the accept cascade either runs
to completion (when no sibling needed rejecting) or aborts at the first
rejection's notification; in every case the acted-upon application, the
tasks and the notifications log are untouched by it. -/
theorem rejectCascade_false_spec (tid : Nat) (title : String) (todo : List Application)
    (s : MemStorage) :
    ∃ s', ((∃ e, rejectCascade false tid title todo s = .thrown e s') ∨
           rejectCascade false tid title todo s = .ok () s') ∧
      getApplication s' tid = getApplication s tid ∧
      s'.tasks = s.tasks ∧ s'.notifications = s.notifications := by
  induction todo generalizing s with
  | nil => exact ⟨s, Or.inr rfl, rfl, rfl, rfl⟩
  | cons a rest ih =>
    by_cases hguard : a.id ≠ tid ∧ a.status = "applied"
    · rcases hfind : s.applications.find? (fun b => b.id == a.id) with _ | b
      · have hupd : updateApplicationStatus s a.id "rejected"
            = .thrown "Application not found" s := by
          unfold updateApplicationStatus
          simp only [hfind]
        refine ⟨s, Or.inl ⟨"Application not found", ?_⟩, rfl, rfl, rfl⟩
        unfold rejectCascade
        rw [if_pos hguard]
        simp only [hupd]
      · have hupd := updateApplicationStatus_found s a.id "rejected" b hfind
        refine ⟨{ s with applications := s.applications.map (setStatusFn a.id "rejected") },
          Or.inl ⟨"notification persistence failure", ?_⟩, ?_, rfl, rfl⟩
        · unfold rejectCascade
          rw [if_pos hguard]
          simp only [hupd, createNotification_false]
        · show (s.applications.map (setStatusFn a.id "rejected")).find? (fun x => x.id == tid)
            = s.applications.find? (fun x => x.id == tid)
          rw [setStatusFn_find?_map]
          rcases hf : s.applications.find? (fun x => x.id == tid) with _ | c
          · rw [hf]
            rfl
          · rw [hf]
            have hc : c.id = tid := by simpa using List.find?_some hf
            have hne : (c.id == a.id) = false := by
              simp only [beq_eq_false_iff_ne, ne_eq]
              rw [hc]
              exact fun hh => hguard.1 hh.symm
            have hfix : setStatusFn a.id "rejected" c = c := by
              unfold setStatusFn
              rw [hne]
              simp
            simp only [Option.map_some', hfix]
    · obtain ⟨s', hcase, h1, h2, h3⟩ := ih s
      refine ⟨s', ?_, h1, h2, h3⟩
      rcases hcase with ⟨e, he⟩ | hok
      · refine Or.inl ⟨e, ?_⟩
        unfold rejectCascade
        rw [if_neg hguard]
        exact he
      · refine Or.inr ?_
        unfold rejectCascade
        rw [if_neg hguard]
        exact hok

/-! ## Claim theorems -/

/-- Claim C1: for every task T and application A on T in status "applied", a
successful decide-application call with decision "accepted" sets A.status
to "accepted", sets T.status to "in-progress", and sets every other
application on T whose status is "applied" to "rejected", while every
sibling application already in status "rejected" or "accepted" (and every
application on another task) is left unchanged. -/
theorem accept_application_cascade
    (s : MemStorage) (caller : User) (appId : Nat) (A : Application) (T : Task)
    (hnd : (s.applications.map Application.id).Nodup)
    (hrole : caller.role = "employer" ∨ caller.role = "admin")
    (hA : getApplication s appId = some A)
    (hAst : A.status = "applied")
    (hT : getTask s A.taskId = some T)
    (hauth : T.employerId = caller.id ∨ caller.role = "admin") :
    ∃ s', patchApplicationStatus caller appId "accepted" true s
        = (.ok 200 { A with status := "accepted" }, s') ∧
      s'.applications = s.applications.map (fun b =>
        if b.id = appId then { b with status := "accepted" }
        else if b.taskId = A.taskId ∧ b.status = "applied" then { b with status := "rejected" }
        else b) ∧
      s'.tasks = s.tasks.map (fun t =>
        if t.id = T.id then { t with status := "in-progress" } else t) := by
  have hA' : s.applications.find? (fun a => a.id == appId) = some A := hA
  have hT' : s.tasks.find? (fun t => t.id == A.taskId) = some T := hT
  have hTid : T.id = A.taskId := by simpa using List.find?_some hT'
  have hnrole : ¬¬(caller.role = "employer" ∨ caller.role = "admin") := not_not_intro hrole
  have hnauth : ¬(T.employerId ≠ caller.id ∧ caller.role ≠ "admin") := by
    rcases hauth with h | h
    · exact fun hc => hc.1 h
    · exact fun hc => hc.2 h
  have h1 := updateApplicationStatus_found s appId "accepted" A hA
  have hT1 : getTask { s with applications := s.applications.map (setStatusFn appId "accepted") } T.id
      = some T := by
    show s.tasks.find? (fun t => t.id == T.id) = some T
    rw [hTid]
    exact hT'
  have h2 := updateTaskStatus_found
    { s with applications := s.applications.map (setStatusFn appId "accepted") }
    T.id "in-progress" T hT1
  have hex : ∀ a ∈ getApplicationsByTaskId
      { s with applications := s.applications.map (setStatusFn appId "accepted"),
               tasks := s.tasks.map (fun u => if u.id == T.id then { u with status := "in-progress" } else u) }
      T.id,
      ∃ x ∈ (s.applications.map (setStatusFn appId "accepted")), x.id = a.id := by
    intro a ha
    exact ⟨a, List.mem_of_mem_filter ha, rfl⟩
  obtain ⟨s3, hcas, happs3, htasks3⟩ := rejectCascade_ok appId T.title
    (getApplicationsByTaskId
      { s with applications := s.applications.map (setStatusFn appId "accepted"),
               tasks := s.tasks.map (fun u => if u.id == T.id then { u with status := "in-progress" } else u) }
      T.id)
    { s with applications := s.applications.map (setStatusFn appId "accepted"),
             tasks := s.tasks.map (fun u => if u.id == T.id then { u with status := "in-progress" } else u) }
    hex
  refine ⟨{ s3 with
      notifications := s3.notifications ++
        [{ id := s3.currentNotificationId, userId := A.studentId,
           ntype := "application_" ++ "accepted",
           content := "Your application for \"" ++ T.title ++ "\" has been " ++ "accepted",
           isRead := false }],
      currentNotificationId := s3.currentNotificationId + 1 }, ?_, ?_, ?_⟩
  · unfold patchApplicationStatus
    rw [if_neg hnrole, if_neg (by decide)]
    simp only [hA, hT]
    rw [if_neg hnauth]
    simp only [h1, reduceIte, h2, hcas, createNotification_true]
  · show s3.applications = _
    rw [happs3]
    show List.foldl _ (s.applications.map (setStatusFn appId "accepted")) _ = _
    rw [cascade_fold_closed]
    rw [List.map_map]
    refine List.map_congr_left (fun b hb => ?_)
    simp only [Function.comp_apply, setStatusFn_id]
    by_cases hbid : b.id = appId
    · have hbid' : (b.id == appId) = true := by simp [hbid]
      have hset : setStatusFn appId "accepted" b = { b with status := "accepted" } := by
        unfold setStatusFn; rw [if_pos hbid']
      have hhit : cascadeHit
          (getApplicationsByTaskId
            { s with applications := s.applications.map (setStatusFn appId "accepted"),
                     tasks := s.tasks.map (fun u => if u.id == T.id then { u with status := "in-progress" } else u) }
            T.id) appId b.id = false := by
        unfold cascadeHit
        rw [List.any_eq_false]
        intro x _
        by_cases hx2 : x.id = appId <;> simp [hbid, hx2]
      rw [hset]
      have hsetid : ({ b with status := "accepted" } : Application).id = b.id := rfl
      rw [hsetid, hhit]
      simp only [Bool.false_eq_true, if_false, if_pos hbid]
    · have hbid' : (b.id == appId) = false := by simp [hbid]
      have hset : setStatusFn appId "accepted" b = b := by
        unfold setStatusFn; rw [hbid']; simp
      rw [hset]
      by_cases hsib : b.taskId = A.taskId ∧ b.status = "applied"
      · have hhit : cascadeHit
            (getApplicationsByTaskId
              { s with applications := s.applications.map (setStatusFn appId "accepted"),
                       tasks := s.tasks.map (fun u => if u.id == T.id then { u with status := "in-progress" } else u) }
              T.id) appId b.id = true := by
          unfold cascadeHit
          rw [List.any_eq_true]
          refine ⟨b, ?_, ?_⟩
          · show b ∈ (s.applications.map (setStatusFn appId "accepted")).filter
              (fun a => a.taskId == T.id)
            refine List.mem_filter.mpr ⟨?_, ?_⟩
            · have : setStatusFn appId "accepted" b = b := hset
              exact this ▸ List.mem_map_of_mem _ hb
            · simp [hsib.1, hTid]
          · simp [hbid, hsib.2]
        rw [hhit]
        simp only [if_true, if_neg hbid, if_pos hsib]
      · have hhit : cascadeHit
            (getApplicationsByTaskId
              { s with applications := s.applications.map (setStatusFn appId "accepted"),
                       tasks := s.tasks.map (fun u => if u.id == T.id then { u with status := "in-progress" } else u) }
              T.id) appId b.id = false := by
          unfold cascadeHit
          rw [List.any_eq_false]
          intro x hx
          have hxmem : x ∈ (s.applications.map (setStatusFn appId "accepted")).filter
              (fun a => a.taskId == T.id) := hx
          have hxmap := List.mem_filter.mp hxmem
          obtain ⟨y, hy, hyx⟩ := List.mem_map.mp hxmap.1
          intro hpred
          simp only [Bool.and_eq_true, beq_iff_eq] at hpred
          have hx1 : x.id = b.id := hpred.1.1
          have hx3 : x.status = "applied" := hpred.2
          have hyid : y.id = b.id := by
            have hyi : (setStatusFn appId "accepted" y).id = x.id := by rw [hyx]
            rw [setStatusFn_id] at hyi
            rw [hyi, hx1]
          have hyb : y = b := List.inj_on_of_nodup_map hnd hy hb hyid
          have hxb : x = b := by rw [← hyx, hyb]; exact hset
          have hbt : b.taskId = A.taskId := by
            have hxt : (x.taskId == T.id) = true := hxmap.2
            rw [hxb] at hxt
            have hbtT : b.taskId = T.id := by simpa using hxt
            rw [hbtT, hTid]
          have hbs : b.status = "applied" := by rw [← hxb]; exact hx3
          exact hsib ⟨hbt, hbs⟩
        rw [hhit]
        simp only [Bool.false_eq_true, if_false, if_neg hbid, if_neg hsib]
  · show s3.tasks = _
    rw [htasks3]
    show s.tasks.map _ = _
    refine List.map_congr_left (fun t _ => ?_)
    by_cases ht : t.id = T.id <;> simp [ht]

/-- Witness for C1 at a concrete store: employer1 accepts app1 on task1,
app2 is cascaded to rejected. -/
theorem accept_application_cascade_witness :
    ∃ s', patchApplicationStatus employer1 1 "accepted" true baseStore
        = (.ok 200 { app1 with status := "accepted" }, s') ∧
      s'.applications = baseStore.applications.map (fun b =>
        if b.id = 1 then { b with status := "accepted" }
        else if b.taskId = app1.taskId ∧ b.status = "applied" then { b with status := "rejected" }
        else b) ∧
      s'.tasks = baseStore.tasks.map (fun t =>
        if t.id = task1.id then { t with status := "in-progress" } else t) :=
  accept_application_cascade baseStore employer1 1 app1 task1
    (by decide) (Or.inl rfl) (by decide) rfl (by decide) (Or.inl rfl)

/-- Claim C9: the decide-application endpoint accepts "applied" as a target
status in addition to "accepted" and "rejected" (any other value fails
with 400 "Invalid status"), and an application already in a terminal
status is set back to "applied" by it, so the lifecycle is reversible
through the public interface. -/
theorem decide_application_accepts_applied
    (s : MemStorage) (caller : User) (appId : Nat) (A : Application) (T : Task)
    (hrole : caller.role = "employer" ∨ caller.role = "admin")
    (hA : getApplication s appId = some A)
    (hAst : A.status = "accepted" ∨ A.status = "rejected")
    (hT : getTask s A.taskId = some T)
    (hauth : T.employerId = caller.id ∨ caller.role = "admin") :
    (∀ st, ¬(st = "applied" ∨ st = "accepted" ∨ st = "rejected") →
      patchApplicationStatus caller appId st true s = (.err 400 "Invalid status", s)) ∧
    (∃ s', patchApplicationStatus caller appId "applied" true s
        = (.ok 200 { A with status := "applied" }, s') ∧
      s'.applications = s.applications.map (fun b =>
        if b.id = appId then { b with status := "applied" } else b) ∧
      s'.tasks = s.tasks) := by
  have hnrole : ¬¬(caller.role = "employer" ∨ caller.role = "admin") := not_not_intro hrole
  have hnauth : ¬(T.employerId ≠ caller.id ∧ caller.role ≠ "admin") := by
    rcases hauth with h | h
    · exact fun hc => hc.1 h
    · exact fun hc => hc.2 h
  constructor
  · intro st hbad
    unfold patchApplicationStatus
    rw [if_neg hnrole, if_pos hbad]
  · refine ⟨{ s with
        applications := s.applications.map (setStatusFn appId "applied"),
        notifications := s.notifications ++
          [{ id := s.currentNotificationId, userId := A.studentId,
             ntype := "application_" ++ "applied",
             content := "Your application for \"" ++ T.title ++ "\" has been " ++ "applied",
             isRead := false }],
        currentNotificationId := s.currentNotificationId + 1 }, ?_, ?_, rfl⟩
    · unfold patchApplicationStatus
      rw [if_neg hnrole, if_neg (by decide)]
      simp only [hA, hT]
      rw [if_neg hnauth]
      simp only [updateApplicationStatus_found s appId "applied" A hA,
        if_neg (show ¬(("applied" : String) = "accepted") by decide),
        createNotification_true]
    · show s.applications.map (setStatusFn appId "applied") = _
      refine List.map_congr_left (fun b _ => ?_)
      unfold setStatusFn
      by_cases hb : b.id = appId
      · simp [hb]
      · simp [hb]

/-- Witness for C9: app1 is already accepted in accStore and employer1
sets it back to "applied". -/
theorem decide_application_accepts_applied_witness :
    (∀ st, ¬(st = "applied" ∨ st = "accepted" ∨ st = "rejected") →
      patchApplicationStatus employer1 1 st true accStore = (.err 400 "Invalid status", accStore)) ∧
    (∃ s', patchApplicationStatus employer1 1 "applied" true accStore
        = (.ok 200 { { app1 with status := "accepted" } with status := "applied" }, s') ∧
      s'.applications = accStore.applications.map (fun b =>
        if b.id = 1 then { b with status := "applied" } else b) ∧
      s'.tasks = accStore.tasks) :=
  decide_application_accepts_applied accStore employer1 1 { app1 with status := "accepted" }
    task1 (Or.inl rfl) (by decide) (Or.inl rfl) (by decide) (Or.inl rfl)

/-- Claim C5 counterexample: with a failing notification store, deciding an
application does NOT return its normal success result — the route's
try/catch maps the failure to a 500 error — even though the status
transition itself has already been applied (and survives). -/
theorem notification_failure_counterexample :
    (patchApplicationStatus employer1 1 "rejected" false baseStore).1
      = ApiResponse.err 500 "Failed to update application status" ∧
    getApplication (patchApplicationStatus employer1 1 "rejected" false baseStore).2 1
      = some { app1 with status := "rejected" } ∧
    (patchApplicationStatus employer1 1 "rejected" false baseStore).2.notifications = [] := by
  decide

/-- Claim C5 amended: for every state-machine operation that emits a
notification (submit application, decide application on both decisions,
legacy record payment, confirm payment), if notification creation fails
the operation does NOT return its normal success result: the failure is
propagated to the caller as the route's generic 500 error (no route
catches it separately), but the already-applied primary state transition
is not rolled back and the notifications log is left unchanged. -/
theorem notification_failure_amended :
    (∀ (s : MemStorage) (caller : User) (body : ApplicationBody) (task : Task),
      caller.role = "student" →
      getApplicationByStudentAndTask s caller.id body.taskId = none →
      getTask s body.taskId = some task →
      postApplications caller body false s
        = (.err 500 "Failed to create application",
           { s with
               applications := s.applications ++
                 [{ id := s.currentApplicationId, taskId := body.taskId, studentId := caller.id,
                    coverLetter := body.coverLetter, status := body.status }],
               currentApplicationId := s.currentApplicationId + 1 })) ∧
    (∀ (s : MemStorage) (caller : User) (appId : Nat) (A : Application) (T : Task),
      (caller.role = "employer" ∨ caller.role = "admin") →
      getApplication s appId = some A →
      getTask s A.taskId = some T →
      (T.employerId = caller.id ∨ caller.role = "admin") →
      patchApplicationStatus caller appId "rejected" false s
        = (.err 500 "Failed to update application status",
           { s with applications := s.applications.map (setStatusFn appId "rejected") })) ∧
    (∀ (s : MemStorage) (caller : User) (appId : Nat) (A : Application) (T : Task),
      (caller.role = "employer" ∨ caller.role = "admin") →
      getApplication s appId = some A →
      getTask s A.taskId = some T →
      (T.employerId = caller.id ∨ caller.role = "admin") →
      ∃ s', patchApplicationStatus caller appId "accepted" false s
          = (.err 500 "Failed to update application status", s') ∧
        getApplication s' appId = some { A with status := "accepted" } ∧
        s'.tasks = s.tasks.map (fun u => if u.id == T.id then { u with status := "in-progress" } else u) ∧
        s'.notifications = s.notifications) ∧
    (∀ (s : MemStorage) (caller : User) (body : InsertPayment) (A : Application) (T : Task),
      (caller.role = "employer" ∨ caller.role = "admin") →
      getApplication s body.applicationId = some A →
      getTask s A.taskId = some T →
      (T.employerId = caller.id ∨ caller.role = "admin") →
      T.status = "in-progress" →
      postPayments caller body false s
        = (.err 500 "Failed to create payment",
           { s with
               payments := s.payments ++
                 [{ id := s.currentPaymentId, applicationId := body.applicationId,
                    amount := body.amount, status := body.status }],
               currentPaymentId := s.currentPaymentId + 1,
               tasks := s.tasks.map (fun u => if u.id == T.id then { u with status := "completed" } else u) })) ∧
    (∀ (s : MemStorage) (caller : User) (appId : Nat) (amount : Int) (A : Application) (T : Task),
      getApplication s appId = some A →
      getTask s A.taskId = some T →
      postPaymentConfirm caller appId amount false s
        = (.err 500 "Error confirming payment",
           { s with
               payments := s.payments ++
                 [{ id := s.currentPaymentId, applicationId := appId,
                    amount := amount, status := "completed" }],
               currentPaymentId := s.currentPaymentId + 1,
               tasks := s.tasks.map (fun u => if u.id == T.id then { u with status := "completed" } else u) })) := by
  refine ⟨?_, ?_, ?_, ?_, ?_⟩
  · intro s caller body task hstud hdup htask
    unfold postApplications
    rw [if_neg (fun hc => hc hstud)]
    simp only [hdup, createApplication]
    have htask1 : getTask
        { s with
            applications := s.applications ++
              [{ id := s.currentApplicationId, taskId := body.taskId, studentId := caller.id,
                 coverLetter := body.coverLetter, status := body.status }],
            currentApplicationId := s.currentApplicationId + 1 } body.taskId = some task := htask
    simp only [htask1, createNotification_false]
  · intro s caller appId A T hrole hA hT hauth
    have hnrole : ¬¬(caller.role = "employer" ∨ caller.role = "admin") := not_not_intro hrole
    have hnauth : ¬(T.employerId ≠ caller.id ∧ caller.role ≠ "admin") := by
      rcases hauth with h | h
      · exact fun hc => hc.1 h
      · exact fun hc => hc.2 h
    unfold patchApplicationStatus
    rw [if_neg hnrole, if_neg (by decide)]
    simp only [hA, hT]
    rw [if_neg hnauth]
    simp only [updateApplicationStatus_found s appId "rejected" A hA,
      if_neg (show ¬(("rejected" : String) = "accepted") by decide),
      createNotification_false]
  · intro s caller appId A T hrole hA hT hauth
    have hnrole : ¬¬(caller.role = "employer" ∨ caller.role = "admin") := not_not_intro hrole
    have hnauth : ¬(T.employerId ≠ caller.id ∧ caller.role ≠ "admin") := by
      rcases hauth with h | h
      · exact fun hc => hc.1 h
      · exact fun hc => hc.2 h
    have hA' : s.applications.find? (fun a => a.id == appId) = some A := hA
    have hT' : s.tasks.find? (fun t => t.id == A.taskId) = some T := hT
    have hAid : A.id = appId := by simpa using List.find?_some hA'
    have hTid : T.id = A.taskId := by simpa using List.find?_some hT'
    have h1 := updateApplicationStatus_found s appId "accepted" A hA
    have hT1 : getTask { s with applications := s.applications.map (setStatusFn appId "accepted") } T.id
        = some T := by
      show s.tasks.find? (fun t => t.id == T.id) = some T
      rw [hTid]
      exact hT'
    have h2 := updateTaskStatus_found
      { s with applications := s.applications.map (setStatusFn appId "accepted") }
      T.id "in-progress" T hT1
    obtain ⟨s3, hcase, hget, htasks, hnotifs⟩ := rejectCascade_false_spec appId T.title
      (getApplicationsByTaskId
        { s with applications := s.applications.map (setStatusFn appId "accepted"),
                 tasks := s.tasks.map (fun u => if u.id == T.id then { u with status := "in-progress" } else u) }
        T.id)
      { s with applications := s.applications.map (setStatusFn appId "accepted"),
               tasks := s.tasks.map (fun u => if u.id == T.id then { u with status := "in-progress" } else u) }
    have hgetA : getApplication s3 appId = some { A with status := "accepted" } := by
      rw [hget]
      show (s.applications.map (setStatusFn appId "accepted")).find? (fun x => x.id == appId)
        = some { A with status := "accepted" }
      rw [setStatusFn_find?_map, hA']
      have : setStatusFn appId "accepted" A = { A with status := "accepted" } := by
        unfold setStatusFn
        rw [if_pos (by simp [hAid])]
      rw [Option.map_some', this]
    refine ⟨s3, ?_, hgetA, htasks, hnotifs⟩
    rcases hcase with ⟨e, he⟩ | hok
    · unfold patchApplicationStatus
      rw [if_neg hnrole, if_neg (by decide)]
      simp only [hA, hT]
      rw [if_neg hnauth]
      simp only [h1, reduceIte, h2, he]
    · unfold patchApplicationStatus
      rw [if_neg hnrole, if_neg (by decide)]
      simp only [hA, hT]
      rw [if_neg hnauth]
      simp only [h1, reduceIte, h2, hok, createNotification_false]
  · intro s caller body A T hrole hA hT hauth hst
    have hnrole : ¬¬(caller.role = "employer" ∨ caller.role = "admin") := not_not_intro hrole
    have hnauth : ¬(T.employerId ≠ caller.id ∧ caller.role ≠ "admin") := by
      rcases hauth with h | h
      · exact fun hc => hc.1 h
      · exact fun hc => hc.2 h
    have hT' : s.tasks.find? (fun t => t.id == A.taskId) = some T := hT
    have hTid : T.id = A.taskId := by simpa using List.find?_some hT'
    have hT1 : getTask
        { s with
            payments := s.payments ++
              [{ id := s.currentPaymentId, applicationId := body.applicationId,
                 amount := body.amount, status := body.status }],
            currentPaymentId := s.currentPaymentId + 1 } T.id = some T := by
      show s.tasks.find? (fun t => t.id == T.id) = some T
      rw [hTid]
      exact hT'
    unfold postPayments
    rw [if_neg hnrole]
    simp only [hA, hT]
    rw [if_neg hnauth, if_neg (fun hc => hc hst)]
    simp only [createPayment]
    simp only [updateTaskStatus_found _ T.id "completed" T hT1, createNotification_false]
  · intro s caller appId amount A T hA hT
    have hT' : s.tasks.find? (fun t => t.id == A.taskId) = some T := hT
    have hTid : T.id = A.taskId := by simpa using List.find?_some hT'
    have hT1 : getTask
        { s with
            payments := s.payments ++
              [{ id := s.currentPaymentId, applicationId := appId,
                 amount := amount, status := "completed" }],
            currentPaymentId := s.currentPaymentId + 1 } T.id = some T := by
      show s.tasks.find? (fun t => t.id == T.id) = some T
      rw [hTid]
      exact hT'
    unfold postPaymentConfirm
    simp only [hA, hT, createPayment]
    simp only [updateTaskStatus_found _ T.id "completed" T hT1, createNotification_false]

/-- Witness for the amended C5 theorem: each of the five notification
sites, instantiated at a concrete store with a failing notification
store — every route returns its generic 500 while the primary transition
survives and no notification is recorded. -/
theorem notification_failure_amended_witness :
    postApplications student3 { taskId := 1, coverLetter := "c3", status := "applied" } false baseStore
      = (.err 500 "Failed to create application",
         { baseStore with
             applications := baseStore.applications ++
               [{ id := baseStore.currentApplicationId, taskId := 1, studentId := student3.id,
                  coverLetter := "c3", status := "applied" }],
             currentApplicationId := baseStore.currentApplicationId + 1 }) ∧
    patchApplicationStatus employer1 1 "rejected" false baseStore
      = (.err 500 "Failed to update application status",
         { baseStore with applications := baseStore.applications.map (setStatusFn 1 "rejected") }) ∧
    (∃ s', patchApplicationStatus employer1 1 "accepted" false baseStore
        = (.err 500 "Failed to update application status", s') ∧
      getApplication s' 1 = some { app1 with status := "accepted" } ∧
      s'.tasks = baseStore.tasks.map
        (fun u => if u.id == task1.id then { u with status := "in-progress" } else u) ∧
      s'.notifications = baseStore.notifications) ∧
    postPayments employer1 { applicationId := 1, amount := 500, status := "completed" } false progStore
      = (.err 500 "Failed to create payment",
         { progStore with
             payments := progStore.payments ++
               [{ id := progStore.currentPaymentId, applicationId := 1,
                  amount := 500, status := "completed" }],
             currentPaymentId := progStore.currentPaymentId + 1,
             tasks := progStore.tasks.map
               (fun u => if u.id == task1.id then { u with status := "completed" } else u) }) ∧
    postPaymentConfirm student2 1 500 false baseStore
      = (.err 500 "Error confirming payment",
         { baseStore with
             payments := baseStore.payments ++
               [{ id := baseStore.currentPaymentId, applicationId := 1,
                  amount := 500, status := "completed" }],
             currentPaymentId := baseStore.currentPaymentId + 1,
             tasks := baseStore.tasks.map
               (fun u => if u.id == task1.id then { u with status := "completed" } else u) }) :=
  ⟨notification_failure_amended.1 baseStore student3
      { taskId := 1, coverLetter := "c3", status := "applied" } task1 rfl (by decide) (by decide),
   notification_failure_amended.2.1 baseStore employer1 1 app1 task1
      (Or.inl rfl) (by decide) (by decide) (Or.inl rfl),
   notification_failure_amended.2.2.1 baseStore employer1 1 app1 task1
      (Or.inl rfl) (by decide) (by decide) (Or.inl rfl),
   notification_failure_amended.2.2.2.1 progStore employer1
      { applicationId := 1, amount := 500, status := "completed" } app1
      { task1 with status := "in-progress" }
      (Or.inl rfl) (by decide) (by decide) (Or.inl rfl) rfl,
   notification_failure_amended.2.2.2.2 baseStore student2 1 500 app1 task1
      (by decide) (by decide)⟩

/-- Full behaviour of POST /api/payment-confirm (simulated path) when the
application and its task exist: a completed payment is recorded and the
task completed, for any authenticated caller. -/
theorem postPaymentConfirm_success
    (s : MemStorage) (caller : User) (appId : Nat) (amount : Int)
    (A : Application) (T : Task)
    (hA : getApplication s appId = some A)
    (hT : getTask s A.taskId = some T) :
    postPaymentConfirm caller appId amount true s
      = (.ok 200 { id := s.currentPaymentId, applicationId := appId,
                   amount := amount, status := "completed" },
         { s with
             payments := s.payments ++
               [{ id := s.currentPaymentId, applicationId := appId,
                  amount := amount, status := "completed" }],
             currentPaymentId := s.currentPaymentId + 1,
             tasks := s.tasks.map (fun u => if u.id == T.id then { u with status := "completed" } else u),
             notifications := s.notifications ++
               [{ id := s.currentNotificationId, userId := A.studentId,
                  ntype := "payment_completed",
                  content := "Payment received for \"" ++ T.title ++ "\"", isRead := false }],
             currentNotificationId := s.currentNotificationId + 1 }) := by
  have hT' : s.tasks.find? (fun t => t.id == A.taskId) = some T := hT
  have hTid : T.id = A.taskId := by simpa using List.find?_some hT'
  have hT1 : getTask
      { s with
          payments := s.payments ++
            [{ id := s.currentPaymentId, applicationId := appId,
               amount := amount, status := "completed" }],
          currentPaymentId := s.currentPaymentId + 1 } T.id = some T := by
    show s.tasks.find? (fun t => t.id == T.id) = some T
    rw [hTid]
    exact hT'
  unfold postPaymentConfirm
  simp only [hA, hT, createPayment]
  simp only [updateTaskStatus_found _ T.id "completed" T hT1, createNotification_true]

/-- Claim C2 counterexample: task1 is "open" (not "in-progress"), yet the
primary path POST /api/payment-confirm succeeds, creates a completed
Payment, and completes the task — it does not fail with InvalidState. -/
theorem payment_requires_in_progress_counterexample :
    task1.status = "open" ∧
    (postPaymentConfirm student2 1 500 true baseStore).1
      = ApiResponse.ok 200 { id := 1, applicationId := 1, amount := 500, status := "completed" } ∧
    (postPaymentConfirm student2 1 500 true baseStore).2.payments
      = [{ id := 1, applicationId := 1, amount := 500, status := "completed" }] ∧
    getTask (postPaymentConfirm student2 1 500 true baseStore).2 1
      = some { task1 with status := "completed" } := by
  decide

/-- Claim C2 amended: only the legacy POST /api/payments path requires
T.status = "in-progress" (failing with 400 and leaving the store
untouched otherwise); the primary POST /api/payment-confirm path performs
no task-status check and succeeds even when the task is "open" or
"completed", creating a completed payment and completing the task. -/
theorem payment_requires_in_progress_amended
    (s : MemStorage) (caller : User) (appId : Nat) (A : Application) (T : Task)
    (hrole : caller.role = "employer" ∨ caller.role = "admin")
    (hA : getApplication s appId = some A)
    (hT : getTask s A.taskId = some T)
    (hauth : T.employerId = caller.id ∨ caller.role = "admin")
    (hst : T.status ≠ "in-progress") :
    (∀ (amt : Int) (pst : String) (notifOk : Bool),
      postPayments caller { applicationId := appId, amount := amt, status := pst } notifOk s
        = (.err 400 "Cannot mark payment for a task that is not in progress", s)) ∧
    (∀ (c2 : User) (amt : Int), ∃ p s',
      postPaymentConfirm c2 appId amt true s = (.ok 200 p, s') ∧
      p.status = "completed" ∧ s'.payments = s.payments ++ [p] ∧
      s'.tasks = s.tasks.map (fun t => if t.id = T.id then { t with status := "completed" } else t)) := by
  have hnrole : ¬¬(caller.role = "employer" ∨ caller.role = "admin") := not_not_intro hrole
  have hnauth : ¬(T.employerId ≠ caller.id ∧ caller.role ≠ "admin") := by
    rcases hauth with h | h
    · exact fun hc => hc.1 h
    · exact fun hc => hc.2 h
  constructor
  · intro amt pst notifOk
    unfold postPayments
    rw [if_neg hnrole]
    simp only [hA, hT]
    rw [if_neg hnauth, if_pos hst]
  · intro c2 amt
    refine ⟨{ id := s.currentPaymentId, applicationId := appId,
              amount := amt, status := "completed" }, _,
      postPaymentConfirm_success s c2 appId amt A T hA hT, rfl, rfl, ?_⟩
    show s.tasks.map _ = _
    refine List.map_congr_left (fun t _ => ?_)
    by_cases ht : t.id = T.id <;> simp [ht]

/-- Witness for the amended C2 theorem at a concrete store (task1 is
"open"). -/
theorem payment_requires_in_progress_amended_witness :
    postPayments employer1 { applicationId := 1, amount := 500, status := "completed" } true baseStore
      = (.err 400 "Cannot mark payment for a task that is not in progress", baseStore) ∧
    (∃ p s', postPaymentConfirm student2 1 500 true baseStore = (.ok 200 p, s') ∧
      p.status = "completed" ∧ s'.payments = baseStore.payments ++ [p] ∧
      s'.tasks = baseStore.tasks.map
        (fun t => if t.id = task1.id then { t with status := "completed" } else t)) :=
  ⟨(payment_requires_in_progress_amended baseStore employer1 1 app1 task1
      (Or.inl rfl) (by decide) (by decide) (Or.inl rfl) (by decide)).1 500 "completed" true,
   (payment_requires_in_progress_amended baseStore employer1 1 app1 task1
      (Or.inl rfl) (by decide) (by decide) (Or.inl rfl) (by decide)).2 student2 500⟩

/-- Claim C10: POST /api/payment-confirm performs no ownership or role check
beyond authentication: for every authenticated caller and every existing
application whose task exists, the call never fails with Forbidden,
creates a completed Payment, and completes the task. -/
theorem payment_confirm_open_access
    (caller : User) (appId : Nat) (amount : Int) (s : MemStorage) :
    (∀ msg, (postPaymentConfirm caller appId amount true s).1 ≠ ApiResponse.err 403 msg) ∧
    (∀ A T, getApplication s appId = some A → getTask s A.taskId = some T →
      ∃ s', postPaymentConfirm caller appId amount true s
          = (.ok 200 { id := s.currentPaymentId, applicationId := appId,
                       amount := amount, status := "completed" }, s') ∧
        s'.payments = s.payments ++
          [{ id := s.currentPaymentId, applicationId := appId,
             amount := amount, status := "completed" }] ∧
        s'.tasks = s.tasks.map (fun t => if t.id = T.id then { t with status := "completed" } else t)) := by
  constructor
  · intro msg
    rcases hA : getApplication s appId with _ | A
    · unfold postPaymentConfirm
      simp only [hA]
      simp
    · rcases hT : getTask s A.taskId with _ | T
      · unfold postPaymentConfirm
        simp only [hA, hT]
        simp
      · rw [postPaymentConfirm_success s caller appId amount A T hA hT]
        simp
  · intro A T hA hT
    refine ⟨_, postPaymentConfirm_success s caller appId amount A T hA hT, rfl, ?_⟩
    show s.tasks.map _ = _
    refine List.map_congr_left (fun t _ => ?_)
    by_cases ht : t.id = T.id <;> simp [ht]

/-- Witness for C10: student2 — the applying student's peer, unrelated to
task1 and not its employer — confirms the payment successfully. -/
theorem payment_confirm_open_access_witness :
    (postPaymentConfirm student2 1 500 true baseStore).1
      ≠ ApiResponse.err 403 "Forbidden" ∧
    (∃ s', postPaymentConfirm student2 1 500 true baseStore
        = (.ok 200 { id := baseStore.currentPaymentId, applicationId := 1,
                     amount := 500, status := "completed" }, s') ∧
      s'.payments = baseStore.payments ++
        [{ id := baseStore.currentPaymentId, applicationId := 1,
           amount := 500, status := "completed" }] ∧
      s'.tasks = baseStore.tasks.map
        (fun t => if t.id = task1.id then { t with status := "completed" } else t)) :=
  ⟨(payment_confirm_open_access student2 1 500 baseStore).1 "Forbidden",
   (payment_confirm_open_access student2 1 500 baseStore).2 app1 task1 (by decide) (by decide)⟩

/-- Claim C3: at most one Application exists per (studentId, taskId) pair: a
second submit-application call for the same pair fails with 400 and
leaves the store unchanged, and a submit call preserves pair-uniqueness
of the applications collection (the only place applications are
created). -/
theorem application_unique_per_student_task
    (s : MemStorage) (caller : User) (body : ApplicationBody) (notifOk : Bool) :
    (caller.role = "student" →
      ∀ e, getApplicationByStudentAndTask s caller.id body.taskId = some e →
        postApplications caller body notifOk s
          = (.err 400 "You have already applied to this task", s)) ∧
    (pairUnique s.applications →
      pairUnique (postApplications caller body notifOk s).2.applications) := by
  constructor
  · intro hstud e he
    unfold postApplications
    rw [if_neg (fun hc => hc hstud)]
    simp only [he]
  · intro hpu
    by_cases hr : caller.role ≠ "student"
    · unfold postApplications
      rw [if_pos hr]
      exact hpu
    · rcases hdup : getApplicationByStudentAndTask s caller.id body.taskId with _ | e
      · have hdup' : s.applications.find?
            (fun a => a.studentId == caller.id && a.taskId == body.taskId) = none := hdup
        have hnew : ∀ a ∈ s.applications,
            ¬(a.studentId = caller.id ∧ a.taskId = body.taskId) := by
          intro a ha hcontra
          exact List.find?_eq_none.mp hdup' a ha (by simp [hcontra.1, hcontra.2])
        have happ : pairUnique (s.applications ++
            [{ id := s.currentApplicationId, taskId := body.taskId, studentId := caller.id,
               coverLetter := body.coverLetter, status := body.status }]) := by
          unfold pairUnique at hpu ⊢
          rw [List.pairwise_append]
          refine ⟨hpu, List.pairwise_singleton _ _, ?_⟩
          intro a ha b hb
          rw [List.mem_singleton] at hb
          subst hb
          exact fun hcontra => hnew a ha ⟨hcontra.1, hcontra.2⟩
        unfold postApplications
        rw [if_neg hr]
        simp only [hdup, createApplication]
        rcases hg : getTask
            { s with
                applications := s.applications ++
                  [{ id := s.currentApplicationId, taskId := body.taskId, studentId := caller.id,
                     coverLetter := body.coverLetter, status := body.status }],
                currentApplicationId := s.currentApplicationId + 1 } body.taskId with _ | task
        · simp only [hg]
          exact happ
        · simp only [hg]
          cases notifOk
          · simp only [createNotification_false]
            exact happ
          · simp only [createNotification_true]
            exact happ
      · unfold postApplications
        rw [if_neg hr]
        simp only [hdup]
        exact hpu

/-- Witness for C3: student1 already applied to task 1, so a second
submission is rejected with the store unchanged, and pair-uniqueness is
preserved. -/
theorem application_unique_per_student_task_witness :
    postApplications student1 { taskId := 1, coverLetter := "again", status := "applied" } true baseStore
      = (.err 400 "You have already applied to this task", baseStore) ∧
    pairUnique (postApplications student1
      { taskId := 1, coverLetter := "again", status := "applied" } true baseStore).2.applications :=
  ⟨(application_unique_per_student_task baseStore student1
      { taskId := 1, coverLetter := "again", status := "applied" } true).1 rfl app1 (by decide),
   (application_unique_per_student_task baseStore student1
      { taskId := 1, coverLetter := "again", status := "applied" } true).2
     (by unfold pairUnique; decide)⟩

/-- Claim C4 counterexample: taskId 42 refers to no task, yet the submission
succeeds with 201 and the Application is created (only the employer
notification is skipped). -/
theorem submit_unknown_task_counterexample :
    getTask baseStore 42 = none ∧
    (postApplications student1 { taskId := 42, coverLetter := "x", status := "applied" } true baseStore).1
      = ApiResponse.ok 201 { id := 3, taskId := 42, studentId := 1, coverLetter := "x", status := "applied" } ∧
    (postApplications student1 { taskId := 42, coverLetter := "x", status := "applied" } true baseStore).2.applications
      = baseStore.applications ++
        [{ id := 3, taskId := 42, studentId := 1, coverLetter := "x", status := "applied" }] := by
  decide

/-- Claim C4 amended: when the taskId refers to no existing task, the
submit-application operation does not fail: the Application is still
created and returned with 201; only the employer notification is skipped
(the notifications log is unchanged). -/
theorem submit_unknown_task_amended
    (s : MemStorage) (caller : User) (body : ApplicationBody) (notifOk : Bool)
    (hstud : caller.role = "student")
    (hdup : getApplicationByStudentAndTask s caller.id body.taskId = none)
    (htask : getTask s body.taskId = none) :
    postApplications caller body notifOk s
      = (.ok 201 { id := s.currentApplicationId, taskId := body.taskId, studentId := caller.id,
                   coverLetter := body.coverLetter, status := body.status },
         { s with
             applications := s.applications ++
               [{ id := s.currentApplicationId, taskId := body.taskId, studentId := caller.id,
                  coverLetter := body.coverLetter, status := body.status }],
             currentApplicationId := s.currentApplicationId + 1 }) := by
  unfold postApplications
  rw [if_neg (fun hc => hc hstud)]
  simp only [hdup, createApplication]
  have htask1 : getTask
      { s with
          applications := s.applications ++
            [{ id := s.currentApplicationId, taskId := body.taskId, studentId := caller.id,
               coverLetter := body.coverLetter, status := body.status }],
          currentApplicationId := s.currentApplicationId + 1 } body.taskId = none := htask
  simp only [htask1]

/-- Witness for the amended C4 theorem at a concrete store. -/
theorem submit_unknown_task_amended_witness :
    postApplications student1 { taskId := 42, coverLetter := "x", status := "applied" } true baseStore
      = (.ok 201 { id := baseStore.currentApplicationId, taskId := 42, studentId := student1.id,
                   coverLetter := "x", status := "applied" },
         { baseStore with
             applications := baseStore.applications ++
               [{ id := baseStore.currentApplicationId, taskId := 42, studentId := student1.id,
                  coverLetter := "x", status := "applied" }],
             currentApplicationId := baseStore.currentApplicationId + 1 }) :=
  submit_unknown_task_amended baseStore student1
    { taskId := 42, coverLetter := "x", status := "applied" } true rfl (by decide) (by decide)

/-- Claim C7: publishing a chat message in an application's room forwards it to
exactly the other connections currently in that room: every member except
the sender receives it, and the sender does not. -/
theorem relay_broadcast_except_sender
    (st : RelayState) (sender appId : Nat)
    (hmem : sender ∈ roomMembers st (roomName appId)) :
    (∀ c, c ∈ sendMessageRecipients st sender appId ↔
      (c ∈ roomMembers st (roomName appId) ∧ c ≠ sender)) ∧
    sender ∉ sendMessageRecipients st sender appId := by
  constructor
  · intro c
    simp [sendMessageRecipients, List.mem_filter]
  · simp [sendMessageRecipients, List.mem_filter]

/-- Witness for C7: sockets 10 and 11 share application 1's room and
socket 12 sits in another room; a message from 10 reaches 11 and not
10. -/
theorem relay_broadcast_except_sender_witness :
    (11 ∈ sendMessageRecipients relay1 10 1 ↔
      (11 ∈ roomMembers relay1 (roomName 1) ∧ 11 ≠ 10)) ∧
    10 ∉ sendMessageRecipients relay1 10 1 :=
  ⟨(relay_broadcast_except_sender relay1 10 1 (by decide)).1 11,
   (relay_broadcast_except_sender relay1 10 1 (by decide)).2⟩

/-- After replacing the entry stored under key `uid` (as
`MemStorage.updateUser` does), looking the key up yields the new entry. -/
theorem find?_key_set (l : List (Nat × User)) (uid : Nat) (v : User) (q : Nat × User)
    (h : l.find? (fun p => p.1 == uid) = some q) :
    (l.map (fun r => if r.1 == uid then (uid, v) else r)).find? (fun p => p.1 == uid)
      = some (uid, v) := by
  induction l with
  | nil => simp at h
  | cons p l ih =>
    rw [List.map_cons]
    by_cases hp : (p.1 == uid) = true
    · rw [if_pos hp]
      simp only [List.find?_cons, beq_self_eq_true]
    · have hp' : (p.1 == uid) = false := by simpa using hp
      rw [if_neg hp]
      simp only [List.find?_cons, hp'] at h ⊢
      exact ih h

/-- Claim C6 counterexample: alice (role "student", id 1 at creation) updates
her own profile with a body containing `role` and `id`; the stored record
afterwards has role "admin" and id field 99 — neither is immutable. -/
theorem user_update_immutable_counterexample :
    aliceReg.1.role = "student" ∧ aliceReg.1.id = 1 ∧
    (patchUser aliceReg.1 1 { id := some 99, role := some "admin" } aliceReg.2).1
      = ApiResponse.ok 200
          { id := 99, username := "alice", email := "alice@x", fullName := "Alice A",
            role := "admin", bio := "" } ∧
    getUser (patchUser aliceReg.1 1 { id := some 99, role := some "admin" } aliceReg.2).2 1
      = some { id := 99, username := "alice", email := "alice@x", fullName := "Alice A",
               role := "admin", bio := "" } := by
  decide

/-- Claim C6 amended: PATCH /api/users/:id shallow-merges the whole request
body over the stored user, so `id` and `role` are preserved exactly when
the body omits them; a body containing either field overwrites it. -/
theorem user_update_preserves_id_role_amended
    (s : MemStorage) (caller : User) (uid : Nat) (u : User) (patch : UserPatch)
    (hauth : caller.id = uid ∨ caller.role = "admin")
    (hu : getUser s uid = some u)
    (hid : patch.id = none) (hrole : patch.role = none) :
    ∃ s', patchUser caller uid patch s = (.ok 200 (mergeUser u patch), s') ∧
      (mergeUser u patch).id = u.id ∧ (mergeUser u patch).role = u.role ∧
      getUser s' uid = some (mergeUser u patch) := by
  have hnauth : ¬(caller.id ≠ uid ∧ caller.role ≠ "admin") := by
    rcases hauth with h | h
    · exact fun hc => hc.1 h
    · exact fun hc => hc.2 h
  have hu' : (s.users.find? (fun p => p.1 == uid)).map Prod.snd = some u := hu
  obtain ⟨q, hq, hq2⟩ := Option.map_eq_some'.mp hu'
  refine ⟨{ s with
      users := s.users.map (fun r => if r.1 == uid then (uid, mergeUser u patch) else r) },
    ?_, ?_, ?_, ?_⟩
  · unfold patchUser
    rw [if_neg hnauth]
    unfold updateUser
    simp only [hq, hq2]
  · unfold mergeUser
    simp [hid]
  · unfold mergeUser
    simp [hrole]
  · show ((s.users.map (fun r => if r.1 == uid then (uid, mergeUser u patch) else r)).find?
      (fun p => p.1 == uid)).map Prod.snd = some (mergeUser u patch)
    rw [find?_key_set s.users uid (mergeUser u patch) q hq]
    rfl

/-- Witness for the amended C6 theorem: alice updates only her bio, and
id and role are preserved. -/
theorem user_update_preserves_id_role_amended_witness :
    ∃ s', patchUser aliceReg.1 1 { bio := some "hi" } aliceReg.2
        = (.ok 200 (mergeUser aliceReg.1 { bio := some "hi" }), s') ∧
      (mergeUser aliceReg.1 { bio := some "hi" }).id = aliceReg.1.id ∧
      (mergeUser aliceReg.1 { bio := some "hi" }).role = aliceReg.1.role ∧
      getUser s' 1 = some (mergeUser aliceReg.1 { bio := some "hi" }) :=
  user_update_preserves_id_role_amended aliceReg.2 aliceReg.1 1 aliceReg.1
    { bio := some "hi" } (Or.inl (by decide)) (by decide) rfl rfl

/-- Under pairwise-distinct (userId, badgeId) pairs, the number of
associations for any fixed pair is at most one. -/
theorem countPair_le_one (l : List UserBadge)
    (hpu : l.Pairwise (fun x y => ¬(x.userId = y.userId ∧ x.badgeId = y.badgeId)))
    (u b : Nat) :
    (l.filter (fun ub => ub.userId == u && ub.badgeId == b)).length ≤ 1 := by
  induction l with
  | nil => simp
  | cons x rest ih =>
    rw [List.pairwise_cons] at hpu
    by_cases hpx : (x.userId == u && x.badgeId == b) = true
    · have hrest : rest.filter (fun ub => ub.userId == u && ub.badgeId == b) = [] := by
        rw [List.filter_eq_nil_iff]
        intro y hy hpy
        have hpx2 := hpx
        simp only [Bool.and_eq_true, beq_iff_eq] at hpx2 hpy
        exact hpu.1 y hy ⟨hpx2.1.trans hpy.1.symm, hpx2.2.trans hpy.2.symm⟩
      simp only [List.filter_cons, hpx, hrest]
      simp
    · have hpx' : (x.userId == u && x.badgeId == b) = false := by simpa using hpx
      simp only [List.filter_cons, hpx']
      exact ih hpu.2

/-- Claim C8: badge awarding is idempotent — when a (userId, badgeId)
association already exists, awarding returns that existing association
and the store is unchanged; in all cases exactly one association for the
awarded pair exists afterwards and pairwise-uniqueness of associations is
preserved, so any sequence of awards leaves exactly one association per
awarded pair. -/
theorem badge_award_idempotent (s : MemStorage) (ins : InsertUserBadge)
    (hwf : s.userBadges.Pairwise (fun x y => ¬(x.userId = y.userId ∧ x.badgeId = y.badgeId))) :
    (∀ ub, s.userBadges.find? (fun x => x.userId == ins.userId && x.badgeId == ins.badgeId)
        = some ub → awardBadgeToUser s ins = (ub, s)) ∧
    countPair (awardBadgeToUser s ins).2 ins.userId ins.badgeId = 1 ∧
    (awardBadgeToUser s ins).2.userBadges.Pairwise
      (fun x y => ¬(x.userId = y.userId ∧ x.badgeId = y.badgeId)) := by
  rcases hfind : s.userBadges.find?
      (fun x => x.userId == ins.userId && x.badgeId == ins.badgeId) with _ | ub
  · have hstore : awardBadgeToUser s ins
        = ({ id := s.currentUserBadgeId, userId := ins.userId, badgeId := ins.badgeId },
           { s with
               userBadges := s.userBadges ++
                 [{ id := s.currentUserBadgeId, userId := ins.userId, badgeId := ins.badgeId }],
               currentUserBadgeId := s.currentUserBadgeId + 1 }) := by
      unfold awardBadgeToUser
      simp only [hfind]
    have hnone : ∀ y ∈ s.userBadges,
        ¬(y.userId = ins.userId ∧ y.badgeId = ins.badgeId) := by
      intro y hy hcontra
      exact List.find?_eq_none.mp hfind y hy (by simp [hcontra.1, hcontra.2])
    refine ⟨?_, ?_, ?_⟩
    · intro ub hub
      rw [hfind] at hub
      cases hub
    · rw [hstore]
      unfold countPair
      rw [List.filter_append]
      have h0 : s.userBadges.filter
          (fun ub => ub.userId == ins.userId && ub.badgeId == ins.badgeId) = [] := by
        rw [List.filter_eq_nil_iff]
        intro y hy hpy
        simp only [Bool.and_eq_true, beq_iff_eq] at hpy
        exact hnone y hy hpy
      rw [h0]
      simp
    · rw [hstore]
      show (s.userBadges ++ [_]).Pairwise _
      rw [List.pairwise_append]
      refine ⟨hwf, List.pairwise_singleton _ _, ?_⟩
      intro y hy z hz
      rw [List.mem_singleton] at hz
      subst hz
      exact fun hcontra => hnone y hy ⟨hcontra.1, hcontra.2⟩
  · have hstore : awardBadgeToUser s ins = (ub, s) := by
      unfold awardBadgeToUser
      simp only [hfind]
    have hmem : ub ∈ s.userBadges := List.mem_of_find?_eq_some hfind
    have hpred := List.find?_some hfind
    refine ⟨?_, ?_, ?_⟩
    · intro ub' hub'
      rw [hfind] at hub'
      injection hub' with h
      rw [← h, hstore]
    · rw [hstore]
      refine Nat.le_antisymm (countPair_le_one s.userBadges hwf ins.userId ins.badgeId) ?_
      have hin : ub ∈ s.userBadges.filter
          (fun x => x.userId == ins.userId && x.badgeId == ins.badgeId) :=
        List.mem_filter.mpr ⟨hmem, hpred⟩
      exact List.length_pos.mpr (List.ne_nil_of_mem hin)
    · rw [hstore]
      exact hwf

/-- Witness for C8: user 1 already holds badge 2 in ubStore; awarding it
again returns the existing association with the store unchanged, and the
pair count is one. -/
theorem badge_award_idempotent_witness :
    awardBadgeToUser ubStore { userId := 1, badgeId := 2 }
      = ({ id := 1, userId := 1, badgeId := 2 }, ubStore) ∧
    countPair (awardBadgeToUser ubStore { userId := 1, badgeId := 2 }).2 1 2 = 1 :=
  ⟨(badge_award_idempotent ubStore { userId := 1, badgeId := 2 } (by decide)).1
      { id := 1, userId := 1, badgeId := 2 } (by decide),
   (badge_award_idempotent ubStore { userId := 1, badgeId := 2 } (by decide)).2.1⟩

end Pay4Skill
